import Mathlib

/-!
Shallow embedding of `myftpserver.py`, a minimal single-file FTP server.

Modelling conventions:
* Python strings are Lean `String`s; every string manipulation the server
  performs (slicing, `strip`, `split`, `removeprefix`, substring `in`,
  `os.path.join`, the dispatch regex) is re-implemented below over `List Char`.
* The filesystem is a `World`: a list of canonical absolute directory paths
  and a list of (canonical path, byte content) files.  No symlinks are
  modelled; `os.chdir`/`os.path.isfile` succeed exactly when the textually
  canonicalised path is present.
* The network is an oracle `NetOracle`: the outcome of a data connection to a
  given host/port, whether a `sendfile` over the established data channel
  raises, and what the STOR receive loop yields — either the full byte stream
  up to the peer's end-of-stream, or the bytes received before a read raised.
  A peer that neither closes nor errors would block the receive loop forever;
  the oracle always renders one of the two outcomes.
* Fallible Python operations are `Except PyExc`; an exception that the Python
  code does not catch shows up as `crashed = some e` in a `StepResult`,
  modelling the exception escaping the command loop and killing the thread.
* Sends on the control channel (`send_message`) are modelled as the reliable
  given transport primitive that the spec's scope section declares them to
  be; a control-channel failure surfaces only at the loop's `recv`.
-/

/-- Python `str.isspace` characters relevant to `\s` in the dispatch regex. -/
def pyIsSpace (c : Char) : Bool :=
  c = ' ' || c = '\t' || c = '\n' || c = '\r' || c = '\x0b' || c = '\x0c'

/-- ASCII uppercase test, matching the regex class `[A-Z]`. -/
def pyIsUpper (c : Char) : Bool :=
  'A' ≤ c && c ≤ 'Z'

/-- List-level test that the first list starts the second. -/
def listStarts : List Char → List Char → Bool
  | [], _ => true
  | _ :: _, [] => false
  | a :: as, b :: bs => a = b && listStarts as bs

/-- List-level substring containment, modelling Python `needle in hay`. -/
def listContains (n : List Char) : List Char → Bool
  | [] => n.isEmpty
  | c :: t => listStarts n (c :: t) || listContains n t

/-- Python `needle in hay` on strings (substring containment). -/
def pyIn (needle hay : String) : Bool :=
  listContains needle.toList hay.toList

/-- Python slice `s[:n]` (here: take the first `n` characters). -/
def strTake (s : String) (n : Nat) : String :=
  String.mk (s.toList.take n)

/-- Python slice `s[n:]` (drop the first `n` characters). -/
def strDrop (s : String) (n : Nat) : String :=
  String.mk (s.toList.drop n)

/-- Python `s.startswith(p)`. -/
def strStartsWith (s p : String) : Bool :=
  listStarts p.toList s.toList

/-- Python `s.endswith(p)`. -/
def strEndsWith (s p : String) : Bool :=
  listStarts p.toList.reverse s.toList.reverse

/-- Python `s.strip()`: remove leading and trailing whitespace. -/
def pyStrip (s : String) : String :=
  String.mk (((s.toList.dropWhile pyIsSpace).reverse.dropWhile pyIsSpace).reverse)

/-- Python `s.removeprefix(p)`. -/
def removePrefixStr (s p : String) : String :=
  if strStartsWith s p then strDrop s p.toList.length else s

/-- Python `s.split(sep)` for a one-character separator. -/
def splitChar : List Char → Char → List (List Char)
  | [], _ => [[]]
  | c :: t, sep =>
    let r := splitChar t sep
    if c = sep then [] :: r
    else
      match r with
      | [] => [[c]]
      | x :: xs => (c :: x) :: xs

/-- Python `s.split(sep)` on strings, one-character separator. -/
def strSplit (s : String) (sep : Char) : List String :=
  (splitChar s.toList sep).map String.mk

/-- Python `sep.join(xs)`. -/
def pyJoin (sep : String) : List String → String
  | [] => ""
  | [x] => x
  | x :: y :: xs => x ++ sep ++ pyJoin sep (y :: xs)

/-- POSIX `os.path.join` on two components: an absolute second component
restarts the result, otherwise it is appended with a separator as needed. -/
def pjoin2 (a b : String) : String :=
  if strStartsWith b "/" then b
  else if a = "" || strEndsWith a "/" then a ++ b
  else a ++ "/" ++ b

/-- Normalise path components: drop empty and `.`, let `..` pop (staying at
the root when already there), as the kernel does for a symlink-free path. -/
def normComps : List String → List String → List String
  | [], acc => acc.reverse
  | c :: cs, acc =>
    if c = "" || c = "." then normComps cs acc
    else if c = ".." then normComps cs acc.tail
    else normComps cs (c :: acc)

/-- Canonicalise an absolute path string (no symlinks modelled). -/
def canon (s : String) : String :=
  "/" ++ pyJoin "/" (normComps (strSplit s '/') [])

/-- Numeric value of a digit run, ignoring the underscore group separators
that Python integer literals allow. -/
def digitsVal (ds : List Char) : Nat :=
  (ds.filter (fun c => ¬ (c = '_'))).foldl (fun a c => a * 10 + (c.toNat - 48)) 0

/-- Body of a Python integer literal after the optional sign: ASCII digit
groups separated by single underscores (`4`, `4_2`; not `_4`, `4_`, `4__2`). -/
def udRest : List Char → Bool
  | [] => true
  | '_' :: [] => false
  | '_' :: d :: t => d.isDigit && udRest t
  | c :: t => c.isDigit && udRest t

/-- Non-empty underscore-grouped digit run. -/
def udBody : List Char → Bool
  | [] => false
  | c :: t => c.isDigit && udRest t

/-- Python `int(s)` as the address arithmetic uses it: surrounding
whitespace, an optional sign and underscore-grouped ASCII digits are
accepted exactly as `int()` accepts them; any other string is the
`ValueError` case, returned as `none`.  The arithmetic is modelled over
`Nat`, so of the `-`-signed literals (which `int()` also accepts) only the
zero-valued ones are representable; other negative entries are outside the
modelled numeral domain and fall to the `ValueError` case. -/
def pyIntNat (s : String) : Option Nat :=
  let cs := ((s.toList.dropWhile pyIsSpace).reverse.dropWhile pyIsSpace).reverse
  match cs with
  | '+' :: rest => if udBody rest then some (digitsVal rest) else none
  | '-' :: rest => if udBody rest && digitsVal rest == 0 then some 0 else none
  | rest => if udBody rest then some (digitsVal rest) else none

/-- Number of leading ASCII-uppercase characters. -/
def upCount : List Char → Nat
  | [] => 0
  | c :: t => if pyIsUpper c then upCount t + 1 else 0

/-- Length matched by the greedy anchored alternative `^[A-Z]{3,4}`. -/
def verbLen (cs : List Char) : Nat :=
  let u := upCount cs
  if 4 ≤ u then 4 else if u = 3 then 3 else 0

/-- Matches of the regex alternative `(?<=\s).+` while scanning left to right:
maximal runs of non-newline characters starting right after a whitespace
character.  Arguments: remaining input, whether the previous character was
whitespace, whether a run is open, and the open run accumulated in reverse. -/
def scanRuns : List Char → Bool → Bool → List Char → List String
  | [], _, inRun, acc => if inRun then [String.mk acc.reverse] else []
  | c :: t, prevSp, inRun, acc =>
    if inRun then
      if c = '\n' then String.mk acc.reverse :: scanRuns t true false []
      else scanRuns t false true (c :: acc)
    else
      if prevSp && !(c = '\n') then scanRuns t false true [c]
      else scanRuns t (pyIsSpace c) false []

/-- Model of `re.findall('^[A-Z]{3,4}(?=\s?)|(?<=\s).+', message)`: the
anchored verb alternative can only fire at position 0; the argument
alternative fires at any later position preceded by whitespace. -/
def parseMessage (msg : String) : List String :=
  let cs := msg.toList
  let k := verbLen cs
  if k = 0 then scanRuns cs false false []
  else String.mk (cs.take k) :: scanRuns (cs.drop k) false false []

/-- Exceptions the modelled Python code can raise without catching them. -/
inductive PyExc
  | indexError
  | typeError
  | valueError
  | osError
  | fileNotFoundError
  | isADirectoryError
  | notADirectoryError
  | connectionResetError
  | brokenPipeError
  deriving DecidableEq

/-- Outcome of an outbound TCP connect attempt, decided by the environment. -/
inductive ConnectOutcome
  | connected
  | refused
  | unreachable
  deriving DecidableEq

/-- Environment oracle: result of connecting to a host/port; whether the
RETR `data_socket.sendfile` raises (and with what, e.g. a reset or broken
pipe) once the channel is up; and what the STOR receive loop yields —
`.ok bytes` when the peer sends `bytes` and closes, or `.error (bytes, e)`
when a `data_socket.recv` raises `e` after `bytes` arrived. -/
structure NetOracle where
  connect : String → Nat → ConnectOutcome
  sendfileErr : Option PyExc
  storRecv : Except (List Nat × PyExc) (List Nat)

/-- Filesystem model: canonical absolute directory paths, and files as
(canonical path, content) pairs.  No symlinks, permissions, or races. -/
structure World where
  dirs : List String
  files : List (String × List Nat)
  deriving DecidableEq

/-- Per-connection session variables of `handle_connected_client`. -/
structure SessionState where
  username : Option String
  password : Option String
  clientInfo : Option (List String)
  currentPath : String
  authenticated : Bool
  connected : Bool
  deriving DecidableEq

/-- Result of handling one received message: updated session variables and
filesystem, the reply lines sent on the control channel, the arguments of
each `connect_to_client` invocation, and — when an exception escaped the
loop, killing the session thread — which exception. -/
structure StepResult where
  state : SessionState
  world : World
  replies : List String
  connects : List (Option (List String))
  crashed : Option PyExc
  deriving DecidableEq

/-- The `SUPPORTED_COMMANDS` list of the server. -/
def SUPPORTED_COMMANDS : List String :=
  ["OPTS", "USER", "PASS", "QUIT", "XPWD", "CWD", "DELE", "PORT", "RETR", "STOR"]

/-- Path resolution as written (identically) in the CWD, DELE, RETR and STOR
handlers: `os.path.join(BASE_PATH, arg[1:])` when the argument starts with a
slash or backslash, else `os.path.join(BASE_PATH, current_path[1:], arg)`. -/
def resolvePath (root cur arg : String) : String :=
  if strTake arg 1 = "/" || strTake arg 1 = "\\" then pjoin2 root (strDrop arg 1)
  else pjoin2 (pjoin2 root (strDrop cur 1)) arg

/-- Model of `os.path.isfile`: the canonicalised path names a file. -/
def isfile (w : World) (p : String) : Bool :=
  (w.files.map Prod.fst).contains (canon p)

/-- Parent of a path in canonical form (the canonicalised path minus its
last component). -/
def canonParent (p : String) : String :=
  "/" ++ pyJoin "/" ((normComps (strSplit p '/') []).dropLast)

/-- Model of what `open(file_path, 'wb')` raises when the STOR target cannot
be created: the target names a directory (`IsADirectoryError`), its parent
component names a file (`NotADirectoryError`), or its parent directory does
not exist (`FileNotFoundError`); `none` when the open succeeds. -/
def openWbExc (w : World) (p : String) : Option PyExc :=
  if w.dirs.contains (canon p) then some .isADirectoryError
  else if (w.files.map Prod.fst).contains (canonParent p) then some .notADirectoryError
  else if ¬ w.dirs.contains (canonParent p) then some .fileNotFoundError
  else none

/-- Host and port computed by `connect_to_client` from the stored address
list: host is the dot-join of the first four entries; the port arithmetic
`int(client_info[4]) * 256 + int(client_info[5])` raises `IndexError` on a
short list and `ValueError` on a non-numeric entry. -/
def parseHostPort (info : List String) : Except PyExc (String × Nat) :=
  let host := pyJoin "." (info.take 4)
  match info.get? 4 with
  | none => .error .indexError
  | some p1s =>
    match pyIntNat p1s with
    | none => .error .valueError
    | some p1 =>
      match info.get? 5 with
      | none => .error .indexError
      | some p2s =>
        match pyIntNat p2s with
        | none => .error .valueError
        | some p2 => .ok (host, p1 * 256 + p2)

/-- Model of `connect_to_client`: slicing `None` raises `TypeError`; only
`ConnectionRefusedError` is caught (yielding `None`); any other connect
failure (modelled as `unreachable`) escapes as an `OSError`. -/
def connect_to_client (net : NetOracle) (ci : Option (List String)) :
    Except PyExc (Option (String × Nat)) :=
  match ci with
  | none => .error .typeError
  | some info =>
    match parseHostPort info with
    | .error e => .error e
    | .ok (host, port) =>
      match net.connect host port with
      | .connected => .ok (some (host, port))
      | .refused => .ok none
      | .unreachable => .error .osError

/-- The 425 reply string (apostrophe written via its code point). -/
def reply425 : String :=
  "425 Can" ++ String.singleton (Char.ofNat 39) ++ "t open data connection."

/-- One dispatch of a parsed command with its (already stripped) argument,
following the if/elif chain of `handle_connected_client` line by line. -/
def handleCommand (root : String) (net : NetOracle) (w : World) (st : SessionState)
    (command arg : String) : StepResult :=
  if ¬ (command ∈ SUPPORTED_COMMANDS) then
    ⟨st, w, ["502 Command not implemented."], [], none⟩
  else if command = "OPTS" then
    let rs := if ¬ strStartsWith arg "UTF8" then
        ["504 Command not implemented for that argument.", "200 OK"]
      else ["200 OK"]
    ⟨st, w, rs, [], none⟩
  else if command = "USER" then
    ⟨{ st with username := some arg }, w, ["331 Username OK, need password."], [], none⟩
  else if command = "PASS" then
    if st.username = some "guest" ∧ arg = "guest" then
      ⟨{ st with password := some arg, authenticated := true }, w,
        ["230 Login successful."], [], none⟩
    else
      ⟨{ st with
          username := none
          password := none
          authenticated := false
          connected := false }, w,
        ["530 Not logged in. Incorrect credentials."], [], none⟩
  else if command = "QUIT" then
    ⟨{ st with connected := false, authenticated := false }, w, ["221 Goodbye."], [], none⟩
  else if ¬ st.authenticated then
    ⟨{ st with connected := false }, w, ["530 Not logged in."], [], none⟩
  else if command = "XPWD" then
    let cp := st.currentPath
    ⟨st, w, [s!"257 Current directory: {cp}"], [], none⟩
  else if command = "CWD" then
    let path := resolvePath root st.currentPath arg
    if ¬ (w.dirs.contains (canon path)) then
      ⟨st, w, [s!"550 {arg} is not a directory."], [], none⟩
    else
      let navigating := canon path
      let current :=
        if ¬ pyIn root navigating then "/"
        else if navigating = root then "/"
        else removePrefixStr navigating root
      ⟨{ st with currentPath := current }, w,
        [s!"250 Changed directory: {current}"], [], none⟩
  else if command = "DELE" then
    let fp := resolvePath root st.currentPath arg
    let cp := st.currentPath
    if ¬ isfile w fp then
      ⟨st, w, [s!"550 {arg} does not exist in {cp} directory."], [], none⟩
    else
      ⟨st, { w with files := w.files.filter (fun f => ¬ (f.1 = canon fp)) },
        [s!"250 {arg} deleted."], [], none⟩
  else if command = "PORT" then
    ⟨{ st with clientInfo := some (strSplit arg ',') }, w, ["200 Command successful."], [], none⟩
  else if command = "RETR" then
    let fp := resolvePath root st.currentPath arg
    let cp := st.currentPath
    if ¬ isfile w fp then
      ⟨st, w, [s!"550 {arg} does not exist in {cp} directory."], [], none⟩
    else
      match connect_to_client net st.clientInfo with
      | .error e => ⟨st, w, [], [st.clientInfo], some e⟩
      | .ok none => ⟨st, w, [reply425], [st.clientInfo], none⟩
      | .ok (some _) =>
        match net.sendfileErr with
        | some e =>
          ⟨st, w, ["150 File status okay; about to begin transfer."],
            [st.clientInfo], some e⟩
        | none =>
          ⟨{ st with clientInfo := none }, w,
            ["150 File status okay; about to begin transfer.",
             s!"250 Successfully transferred {arg}."],
            [st.clientInfo], none⟩
  else if command = "STOR" then
    let fp := resolvePath root st.currentPath arg
    if isfile w fp then
      ⟨st, w, [s!"553 Requested action not taken. {arg} name already taken."], [], none⟩
    else
      match connect_to_client net st.clientInfo with
      | .error e => ⟨st, w, [], [st.clientInfo], some e⟩
      | .ok none => ⟨st, w, [reply425], [st.clientInfo], none⟩
      | .ok (some _) =>
        match openWbExc w fp with
        | some e =>
          ⟨st, w, ["150 File status okay; about to begin transfer."],
            [st.clientInfo], some e⟩
        | none =>
          match net.storRecv with
          | .error (got, e) =>
            ⟨st, { w with files := (canon fp, got) :: w.files },
              ["150 File status okay; about to begin transfer."],
              [st.clientInfo], some e⟩
          | .ok data =>
            ⟨st, { w with files := (canon fp, data) :: w.files },
              ["150 File status okay; about to begin transfer.",
               s!"250 Successfully transferred {arg}."],
              [st.clientInfo], none⟩
  else
    ⟨st, w, [], [], none⟩

/-- The `try arg = split_message[1].strip() except IndexError: arg = ''`
recovery: the stripped second regex match, or the empty string. -/
def argOf : List String → String
  | [] => ""
  | a :: _ => pyStrip a

/-- Handling of one non-empty stripped message: the regex split, the
`IndexError` on `split_message[0]` when the regex finds nothing, the
optional-argument recovery, and the command dispatch. -/
def handleMessage (root : String) (net : NetOracle) (w : World) (st : SessionState)
    (message : String) : StepResult :=
  match parseMessage message with
  | [] => ⟨st, w, [], [], some .indexError⟩
  | command :: rest => handleCommand root net w st command (argOf rest)

/-- What one `cnx.recv` of the control loop produced: a decoded text message,
or a `ConnectionResetError`. -/
inductive RecvEvent
  | msg (raw : String)
  | resetErr
  deriving DecidableEq

/-- One iteration of the `while connected` loop of
`handle_connected_client`: a reset closes the connection, a message that
strips to the empty string closes the connection, anything else is handled. -/
def sessionStep (root : String) (net : NetOracle) (w : World) (st : SessionState)
    (ev : RecvEvent) : StepResult :=
  match ev with
  | .resetErr => ⟨{ st with connected := false }, w, [], [], none⟩
  | .msg raw =>
    let message := pyStrip raw
    if message = "" then ⟨{ st with connected := false }, w, [], [], none⟩
    else handleMessage root net w st message

/-- Oracle whose data connections are always refused. -/
def net0 : NetOracle := ⟨fun _ _ => .refused, none, .ok []⟩

/-- Oracle whose data connections and transfers always succeed; a STOR peer
sends two bytes and closes. -/
def netConn : NetOracle := ⟨fun _ _ => .connected, none, .ok [7, 8]⟩

/-- Oracle whose data connections always fail with an unreachable host. -/
def netUnreach : NetOracle := ⟨fun _ _ => .unreachable, none, .ok []⟩

/-- Tiny filesystem: the filesystem root and the server root `/r`. -/
def w0 : World := ⟨["/", "/r"], []⟩

/-- Filesystem holding one file `/r/f` under server root `/r`. -/
def wF : World := ⟨["/"], [("/r/f", [1, 2, 3])]⟩

/-- Filesystem for the CWD escape: server root `/a`, sibling directory `/ab`. -/
def wC1 : World := ⟨["/", "/a", "/ab"], []⟩

/-- Fresh session right after the welcome reply. -/
def stUnauth : SessionState := ⟨none, none, none, "/", false, true⟩

/-- Session after a successful `USER guest` / `PASS guest` login. -/
def stAuth : SessionState := ⟨some "guest", some "guest", none, "/", true, true⟩

/-- Authenticated session that has issued `PORT 127,0,0,1,4,1`. -/
def stAuthCI : SessionState :=
  ⟨some "guest", some "guest", some ["127", "0", "0", "1", "4", "1"], "/", true, true⟩

/-- C1: the spec demands that a CWD whose canonical target is not a
descendant of the server root be rejected with the session reset to `/`.
The code instead tests `BASE_PATH not in navigating_path` — substring
containment — and strips with `removeprefix`.  With server root `/a` and an
existing outside directory `/ab`, `CWD ../ab` canonicalises to `/ab`, which
is not a descendant of `/a`, yet the substring test passes, the command is
accepted with reply 250, and the virtual path becomes `b` instead of being
reset to `/`. -/
theorem c1_cwd_escape_eval :
    (sessionStep "/a" net0 wC1 stAuth (.msg "CWD ../ab")).replies =
      ["250 Changed directory: b"] ∧
    (sessionStep "/a" net0 wC1 stAuth (.msg "CWD ../ab")).state.currentPath = "b" ∧
    canon (resolvePath "/a" "/" "../ab") = "/ab" ∧
    ¬ ("/ab" = "/a" ∨ strStartsWith "/ab" ("/a" ++ "/") = true) := by
  refine ⟨by decide, by decide, by decide, by decide⟩

/-- C2: while unauthenticated, any supported command other than
OPTS/USER/PASS/QUIT is not executed: the server replies 530, closes the
connection, and changes nothing else — no filesystem action, no data
connection, and all other session variables are untouched. -/
theorem c2_unauth_command_fatal :
    ∀ (root : String) (net : NetOracle) (w : World) (st : SessionState) (cmd arg : String),
    st.authenticated = false → cmd ∈ SUPPORTED_COMMANDS →
    cmd ≠ "OPTS" → cmd ≠ "USER" → cmd ≠ "PASS" → cmd ≠ "QUIT" →
    handleCommand root net w st cmd arg =
      ⟨{ st with connected := false }, w, ["530 Not logged in."], [], none⟩ := by
  intro root net w st cmd arg hauth hmem h1 h2 h3 h4
  fin_cases hmem <;> simp_all [handleCommand, SUPPORTED_COMMANDS]

/-- Witness for C2 at `XPWD` on a fresh unauthenticated session. -/
theorem c2_unauth_command_fatal_witness :
    stUnauth.authenticated = false ∧ "XPWD" ∈ SUPPORTED_COMMANDS ∧
    handleCommand "/r" net0 w0 stUnauth "XPWD" "" =
      ⟨{ stUnauth with connected := false }, w0, ["530 Not logged in."], [], none⟩ :=
  ⟨rfl, by decide,
    c2_unauth_command_fatal "/r" net0 w0 stUnauth "XPWD" "" rfl (by decide)
      (by decide) (by decide) (by decide) (by decide)⟩

/-- C8: an authenticated STOR naming an existing file replies 553 and does
nothing else: same session variables, same filesystem, no data-connection
attempt, no exception. -/
theorem c8_stor_existing_frame :
    ∀ (root : String) (net : NetOracle) (w : World) (st : SessionState) (arg : String),
    st.authenticated = true →
    isfile w (resolvePath root st.currentPath arg) = true →
    handleCommand root net w st "STOR" arg =
      ⟨st, w, [s!"553 Requested action not taken. {arg} name already taken."], [], none⟩ := by
  intro root net w st arg hauth hf
  simp [handleCommand, SUPPORTED_COMMANDS, hauth, hf]

/-- Witness for C8: `STOR f` with `/r/f` already present. -/
theorem c8_stor_existing_frame_witness :
    stAuth.authenticated = true ∧
    isfile wF (resolvePath "/r" stAuth.currentPath "f") = true ∧
    handleCommand "/r" net0 wF stAuth "STOR" "f" =
      ⟨stAuth, wF, ["553 Requested action not taken. f name already taken."], [], none⟩ :=
  ⟨rfl, by decide, c8_stor_existing_frame "/r" net0 wF stAuth "f" rfl (by decide)⟩

/-- C10: with no PORT issued (`client_info is None`), an authenticated RETR
of an existing file or STOR of a fresh path passes the file check and calls
`connect_to_client(None)`, which raises `TypeError`; the exception escapes,
so no 425 and no transfer reply is ever sent for that command. -/
theorem c10_transfer_without_port :
    ∀ (root : String) (net : NetOracle) (w : World) (st : SessionState) (arg : String),
    st.authenticated = true → st.clientInfo = none →
    (isfile w (resolvePath root st.currentPath arg) = true →
      handleCommand root net w st "RETR" arg = ⟨st, w, [], [none], some .typeError⟩) ∧
    (isfile w (resolvePath root st.currentPath arg) = false →
      handleCommand root net w st "STOR" arg = ⟨st, w, [], [none], some .typeError⟩) := by
  intro root net w st arg hauth hci
  constructor <;> intro hf <;>
    simp [handleCommand, SUPPORTED_COMMANDS, hauth, hci, hf, connect_to_client]

/-- Witness for C10: `RETR f` with `/r/f` present and no PORT issued. -/
theorem c10_transfer_without_port_witness :
    stAuth.authenticated = true ∧ stAuth.clientInfo = none ∧
    isfile wF (resolvePath "/r" stAuth.currentPath "f") = true ∧
    handleCommand "/r" net0 wF stAuth "RETR" "f" =
      ⟨stAuth, wF, [], [none], some .typeError⟩ :=
  ⟨rfl, rfl, by decide,
    (c10_transfer_without_port "/r" net0 wF stAuth "f" rfl rfl).1 (by decide)⟩

/-- C3 counterexample: an argument beginning with two separators is not
rooted at the server root — `os.path.join` restarts at the argument's own
absolute remainder, so `//x` resolves to `/x`, escaping `/srv`. -/
theorem c3_double_slash_escape :
    strTake "//x" 1 = "/" ∧
    resolvePath "/srv" "/" "//x" = "/x" ∧
    strStartsWith (resolvePath "/srv" "/" "//x") "/srv" = false := by
  refine ⟨by decide, by decide, by decide⟩

/-- C5 counterexample: a fully successful `STOR x` (two replies, file
written) leaves `client_info` set — the STOR handler never clears it, so the
advertised address is not consumed one-shot. -/
theorem c5_stor_keeps_peer :
    (handleCommand "/r" netConn w0 stAuthCI "STOR" "x").crashed = none ∧
    (handleCommand "/r" netConn w0 stAuthCI "STOR" "x").replies =
      ["150 File status okay; about to begin transfer.",
       "250 Successfully transferred x."] ∧
    (handleCommand "/r" netConn w0 stAuthCI "STOR" "x").state.clientInfo =
      some ["127", "0", "0", "1", "4", "1"] := by
  refine ⟨by decide, by decide, by decide⟩

/-- C6 counterexample: when the connect attempt fails as unreachable rather
than refused, `connect_to_client` does not return `None` — only
`ConnectionRefusedError` is caught, so the `OSError` propagates. -/
theorem c6_unreachable_propagates :
    connect_to_client netUnreach (some ["10", "0", "0", "1", "4", "1"]) =
      .error .osError := rfl

/-- C7 counterexample: `OPTS X` draws two replies (504 then 200) even though
it is not a transfer command, so option-setting with an unsupported argument
violates the one-reply-per-line rule. -/
theorem c7_opts_double_reply :
    (sessionStep "/r" net0 w0 stUnauth (.msg "OPTS X")).crashed = none ∧
    (sessionStep "/r" net0 w0 stUnauth (.msg "OPTS X")).replies =
      ["504 Command not implemented for that argument.", "200 OK"] := by
  refine ⟨by decide, by decide⟩

/-- C9 counterexample: the non-empty line `hello` contains no token the
dispatch regex can extract, so `split_message[0]` raises `IndexError`: the
session dies with no 502 reply and no state left behind. -/
theorem c9_unparseable_crash :
    (sessionStep "/r" net0 w0 stUnauth (.msg "hello")).crashed = some .indexError ∧
    (sessionStep "/r" net0 w0 stUnauth (.msg "hello")).replies = [] := by
  refine ⟨by decide, by decide⟩

/-- A list starts any extension of itself. -/
theorem listStarts_self_append (l m : List Char) : listStarts l (l ++ m) = true := by
  induction l with
  | nil => rfl
  | cons a as ih => simp [listStarts, ih]

/-- Transitivity of `listStarts`. -/
theorem listStarts_trans : ∀ {a b c : List Char},
    listStarts a b = true → listStarts b c = true → listStarts a c = true := by
  intro a
  induction a with
  | nil => intro b c _ _; rfl
  | cons x xs ih =>
    intro b c hab hbc
    cases b with
    | nil => simp [listStarts] at hab
    | cons y ys =>
      cases c with
      | nil => simp [listStarts] at hbc
      | cons z zs =>
        simp only [listStarts, Bool.and_eq_true, decide_eq_true_eq] at hab hbc ⊢
        exact ⟨hab.1.trans hbc.1, ih hab.2 hbc.2⟩

/-- Joining a non-absolute component onto `a` keeps `a` as a prefix. -/
theorem pjoin2_rooted (a b : String) (hb : strStartsWith b "/" = false) :
    strStartsWith (pjoin2 a b) a = true := by
  unfold pjoin2
  rw [hb]
  simp only [Bool.false_eq_true, if_false]
  split
  · show listStarts a.toList (a.toList ++ b.toList) = true
    exact listStarts_self_append a.toList b.toList
  · show listStarts a.toList ((a.toList ++ ['/']) ++ b.toList) = true
    rw [List.append_assoc]
    exact listStarts_self_append a.toList (['/'] ++ b.toList)

/-- C3 amended: path resolution is `os.path.join(root, arg[1:])` for an
argument starting with `/` or `\`, else `os.path.join(root, cur[1:], arg)`,
with POSIX join semantics; the result is guaranteed to be rooted at the
server root only when the component joined after the root is not itself
absolute — an argument whose remainder after the stripped separator starts
with another `/` restarts resolution outside the root. -/
theorem c3_resolution_amended :
    ∀ (root cur arg : String),
    ((strTake arg 1 = "/" ∨ strTake arg 1 = "\\") →
      resolvePath root cur arg = pjoin2 root (strDrop arg 1) ∧
      (strStartsWith (strDrop arg 1) "/" = false →
        strStartsWith (resolvePath root cur arg) root = true)) ∧
    (¬ (strTake arg 1 = "/" ∨ strTake arg 1 = "\\") →
      resolvePath root cur arg = pjoin2 (pjoin2 root (strDrop cur 1)) arg ∧
      (strStartsWith (strDrop cur 1) "/" = false →
        strStartsWith arg "/" = false →
        strStartsWith (resolvePath root cur arg) root = true)) := by
  intro root cur arg
  constructor
  · intro habs
    have hres : resolvePath root cur arg = pjoin2 root (strDrop arg 1) := by
      unfold resolvePath
      rcases habs with h | h <;> simp [h]
    refine ⟨hres, fun hb => ?_⟩
    rw [hres]
    exact pjoin2_rooted root (strDrop arg 1) hb
  · intro habs
    push_neg at habs
    have hres : resolvePath root cur arg = pjoin2 (pjoin2 root (strDrop cur 1)) arg := by
      unfold resolvePath
      simp [habs.1, habs.2]
    refine ⟨hres, fun hcur harg => ?_⟩
    rw [hres]
    have h1 : strStartsWith (pjoin2 root (strDrop cur 1)) root = true :=
      pjoin2_rooted root (strDrop cur 1) hcur
    have h2 : strStartsWith (pjoin2 (pjoin2 root (strDrop cur 1)) arg)
        (pjoin2 root (strDrop cur 1)) = true :=
      pjoin2_rooted (pjoin2 root (strDrop cur 1)) arg harg
    exact listStarts_trans h1 h2

/-- Witness for C3 amended: `/x` from root `/r` resolves to `/r/x`, rooted. -/
theorem c3_resolution_amended_witness :
    (strTake "/x" 1 = "/" ∨ strTake "/x" 1 = "\\") ∧
    resolvePath "/r" "/" "/x" = pjoin2 "/r" (strDrop "/x" 1) ∧
    strStartsWith (resolvePath "/r" "/" "/x") "/r" = true :=
  ⟨Or.inl (by decide),
    ((c3_resolution_amended "/r" "/" "/x").1 (Or.inl (by decide))).1,
    ((c3_resolution_amended "/r" "/" "/x").1 (Or.inl (by decide))).2 (by decide)⟩

/-- C9 amended: a non-empty line from which the dispatch regex extracts a
leading token that is outside the supported vocabulary draws exactly one 502
reply with no state change and the session stays open; a non-empty line
yielding no token at all instead raises `IndexError` (see the
counterexample), killing the session without any reply. -/
theorem c9_unknown_verb_amended :
    ∀ (root : String) (net : NetOracle) (w : World) (st : SessionState)
      (raw command : String) (rest : List String),
    parseMessage (pyStrip raw) = command :: rest →
    ¬ (command ∈ SUPPORTED_COMMANDS) →
    sessionStep root net w st (.msg raw) =
      ⟨st, w, ["502 Command not implemented."], [], none⟩ := by
  intro root net w st raw command rest hp hmem
  have hne : ¬ (pyStrip raw = "") := by
    intro h
    rw [h] at hp
    have : parseMessage "" = [] := rfl
    rw [this] at hp
    exact List.noConfusion hp
  simp only [sessionStep, hne, if_false, handleMessage, hp]
  simp [handleCommand, hmem]

/-- Witness for C9 amended: the line `NOOP` parses to an unsupported verb. -/
theorem c9_unknown_verb_amended_witness :
    parseMessage (pyStrip "NOOP") = ["NOOP"] ∧ ¬ ("NOOP" ∈ SUPPORTED_COMMANDS) ∧
    sessionStep "/r" net0 w0 stUnauth (.msg "NOOP") =
      ⟨stUnauth, w0, ["502 Command not implemented."], [], none⟩ :=
  ⟨by decide, by decide,
    c9_unknown_verb_amended "/r" net0 w0 stUnauth "NOOP" "NOOP" [] (by decide) (by decide)⟩

/-- C5 amended: `client_info` is cleared only by a fully successful RETR
(the two-reply path); every other non-crashing transfer outcome — RETR
"does not exist" or 425, and every STOR outcome including success — leaves
the stored peer address unchanged, available for reuse. -/
theorem c5_peer_clear_amended :
    ∀ (root : String) (net : NetOracle) (w : World) (st : SessionState) (arg : String),
    ((handleCommand root net w st "STOR" arg).crashed = none →
      (handleCommand root net w st "STOR" arg).state.clientInfo = st.clientInfo) ∧
    ((handleCommand root net w st "RETR" arg).crashed = none →
      (handleCommand root net w st "RETR" arg).state.clientInfo =
        (if (handleCommand root net w st "RETR" arg).replies.length = 2 then none
         else st.clientInfo)) := by
  intro root net w st arg
  constructor
  · intro hc
    by_cases ha : st.authenticated
    · by_cases hf : isfile w (resolvePath root st.currentPath arg)
      · simp [handleCommand, SUPPORTED_COMMANDS, ha, hf]
      · rcases hcc : connect_to_client net st.clientInfo with e | o
        · simp [handleCommand, SUPPORTED_COMMANDS, ha, hf, hcc] at hc
        · rcases o with _ | s
          · simp [handleCommand, SUPPORTED_COMMANDS, ha, hf, hcc]
          · rcases hoe : openWbExc w (resolvePath root st.currentPath arg) with _ | e
            · rcases hsr : net.storRecv with p | data
              · simp [handleCommand, SUPPORTED_COMMANDS, ha, hf, hcc, hoe, hsr] at hc
              · simp [handleCommand, SUPPORTED_COMMANDS, ha, hf, hcc, hoe, hsr]
            · simp [handleCommand, SUPPORTED_COMMANDS, ha, hf, hcc, hoe] at hc
    · simp [handleCommand, SUPPORTED_COMMANDS, ha]
  · intro hc
    by_cases ha : st.authenticated
    · by_cases hf : isfile w (resolvePath root st.currentPath arg)
      · rcases hcc : connect_to_client net st.clientInfo with e | o
        · simp [handleCommand, SUPPORTED_COMMANDS, ha, hf, hcc] at hc
        · rcases o with _ | s
          · simp [handleCommand, SUPPORTED_COMMANDS, ha, hf, hcc, reply425]
          · rcases hse : net.sendfileErr with _ | e
            · simp [handleCommand, SUPPORTED_COMMANDS, ha, hf, hcc, hse]
            · simp [handleCommand, SUPPORTED_COMMANDS, ha, hf, hcc, hse] at hc
      · simp [handleCommand, SUPPORTED_COMMANDS, ha, hf]
    · simp [handleCommand, SUPPORTED_COMMANDS, ha]

/-- Witness for C5 amended: after the successful `STOR x` of the
counterexample, the peer address is indeed retained. -/
theorem c5_peer_clear_amended_witness :
    (handleCommand "/r" netConn w0 stAuthCI "STOR" "x").crashed = none ∧
    (handleCommand "/r" netConn w0 stAuthCI "STOR" "x").state.clientInfo =
      stAuthCI.clientInfo :=
  ⟨by decide, (c5_peer_clear_amended "/r" netConn w0 stAuthCI "x").1 (by decide)⟩

/-- C6 amended: the establisher aims at host `h1.h2.h3.h4` and port
`p1*256 + p2`; a refused connection is caught and returned as `None`, a
successful one returns the channel, but an unreachable host raises an
uncaught `OSError` that propagates to the caller. -/
theorem c6_connect_amended :
    ∀ (a b c d p1s p2s : String) (net : NetOracle) (v1 v2 : Nat),
    pyIntNat p1s = some v1 → pyIntNat p2s = some v2 →
    parseHostPort [a, b, c, d, p1s, p2s] = .ok (pyJoin "." [a, b, c, d], v1 * 256 + v2) ∧
    connect_to_client net (some [a, b, c, d, p1s, p2s]) =
      (match net.connect (pyJoin "." [a, b, c, d]) (v1 * 256 + v2) with
       | .connected => .ok (some (pyJoin "." [a, b, c, d], v1 * 256 + v2))
       | .refused => .ok none
       | .unreachable => .error .osError) := by
  intro a b c d p1s p2s net v1 v2 h1 h2
  have hp : parseHostPort [a, b, c, d, p1s, p2s] =
      .ok (pyJoin "." [a, b, c, d], v1 * 256 + v2) := by
    simp [parseHostPort, h1, h2, List.get?]
  exact ⟨hp, by simp [connect_to_client, hp]⟩

/-- Witness for C6 amended at the address 10.0.0.1 port 1025. -/
theorem c6_connect_amended_witness :
    pyIntNat "4" = some 4 ∧ pyIntNat "1" = some 1 ∧
    parseHostPort ["10", "0", "0", "1", "4", "1"] =
      .ok (pyJoin "." ["10", "0", "0", "1"], 4 * 256 + 1) :=
  ⟨by decide, by decide,
    (c6_connect_amended "10" "0" "0" "1" "4" "1" net0 4 1 (by decide) (by decide)).1⟩

/-- Events on which the session sends no reply at all: a control-channel
reset, or a line that strips to the empty string (treated as a disconnect). -/
def silentCond : RecvEvent → Bool
  | .resetErr => true
  | .msg raw => pyStrip raw == ""

/-- Per-command reply count: every non-crashing dispatch sends exactly one
reply, except the two-reply sequences, which open with the 150
transfer-start reply or the 504 unsupported-option reply. -/
theorem handleCommand_reply_count (root : String) (net : NetOracle) (w : World)
    (st : SessionState) (command arg : String) :
    (handleCommand root net w st command arg).crashed = none →
    ((handleCommand root net w st command arg).replies.length = 1 ∨
     ((handleCommand root net w st command arg).replies.length = 2 ∧
       ((handleCommand root net w st command arg).replies.head? =
          some "150 File status okay; about to begin transfer." ∨
        (handleCommand root net w st command arg).replies.head? =
          some "504 Command not implemented for that argument."))) := by
  intro hc
  by_cases hs : command ∈ SUPPORTED_COMMANDS
  · fin_cases hs
    · by_cases hu : strStartsWith arg "UTF8" <;> simp [handleCommand, SUPPORTED_COMMANDS, hu]
    · simp [handleCommand, SUPPORTED_COMMANDS]
    · by_cases hg : st.username = some "guest" ∧ arg = "guest"
      · simp [handleCommand, SUPPORTED_COMMANDS, hg.1, hg.2]
      · simp [handleCommand, SUPPORTED_COMMANDS, hg]
    · simp [handleCommand, SUPPORTED_COMMANDS]
    · by_cases ha : st.authenticated <;> simp [handleCommand, SUPPORTED_COMMANDS, ha]
    · by_cases ha : st.authenticated
      · simp [handleCommand, SUPPORTED_COMMANDS, ha]
        split <;> simp
      · simp [handleCommand, SUPPORTED_COMMANDS, ha]
    · by_cases ha : st.authenticated
      · simp [handleCommand, SUPPORTED_COMMANDS, ha]
        split <;> simp
      · simp [handleCommand, SUPPORTED_COMMANDS, ha]
    · by_cases ha : st.authenticated <;> simp [handleCommand, SUPPORTED_COMMANDS, ha]
    · by_cases ha : st.authenticated
      · by_cases hf : isfile w (resolvePath root st.currentPath arg)
        · rcases hcc : connect_to_client net st.clientInfo with e | o
          · simp [handleCommand, SUPPORTED_COMMANDS, ha, hf, hcc] at hc
          · rcases o with _ | s
            · simp [handleCommand, SUPPORTED_COMMANDS, ha, hf, hcc]
            · rcases hse : net.sendfileErr with _ | e
              · simp [handleCommand, SUPPORTED_COMMANDS, ha, hf, hcc, hse]
              · simp [handleCommand, SUPPORTED_COMMANDS, ha, hf, hcc, hse] at hc
        · simp [handleCommand, SUPPORTED_COMMANDS, ha, hf]
      · simp [handleCommand, SUPPORTED_COMMANDS, ha]
    · by_cases ha : st.authenticated
      · by_cases hf : isfile w (resolvePath root st.currentPath arg)
        · simp [handleCommand, SUPPORTED_COMMANDS, ha, hf]
        · rcases hcc : connect_to_client net st.clientInfo with e | o
          · simp [handleCommand, SUPPORTED_COMMANDS, ha, hf, hcc] at hc
          · rcases o with _ | s
            · simp [handleCommand, SUPPORTED_COMMANDS, ha, hf, hcc]
            · rcases hoe : openWbExc w (resolvePath root st.currentPath arg) with _ | e
              · rcases hsr : net.storRecv with p | data
                · simp [handleCommand, SUPPORTED_COMMANDS, ha, hf, hcc, hoe, hsr] at hc
                · simp [handleCommand, SUPPORTED_COMMANDS, ha, hf, hcc, hoe, hsr]
              · simp [handleCommand, SUPPORTED_COMMANDS, ha, hf, hcc, hoe] at hc
      · simp [handleCommand, SUPPORTED_COMMANDS, ha]
  · simp [handleCommand, hs]

/-- C7 amended: a non-crashing loop iteration sends zero, one or two
replies; zero exactly for a transport reset or a blank line; two only for
the successful-transfer sequence (leading 150) or for the option-setting
command with an argument not starting with `UTF8` (leading 504, then 200) —
so option-setting is precisely the non-transfer exception to the
one-reply-per-line rule.  Crashing iterations (see the C4 and C9 results)
die without completing any reply sequence. -/
theorem c7_reply_count_amended :
    ∀ (root : String) (net : NetOracle) (w : World) (st : SessionState) (ev : RecvEvent),
    (sessionStep root net w st ev).crashed = none →
    ((sessionStep root net w st ev).replies.length = 0 ∨
     (sessionStep root net w st ev).replies.length = 1 ∨
     (sessionStep root net w st ev).replies.length = 2) ∧
    ((sessionStep root net w st ev).replies.length = 0 ↔ silentCond ev = true) ∧
    ((sessionStep root net w st ev).replies.length = 2 →
      (sessionStep root net w st ev).replies.head? =
          some "150 File status okay; about to begin transfer." ∨
      (sessionStep root net w st ev).replies.head? =
          some "504 Command not implemented for that argument.") := by
  intro root net w st ev
  cases ev with
  | resetErr => intro _; simp [sessionStep, silentCond]
  | msg raw =>
    by_cases hm : pyStrip raw = ""
    · intro _; simp [sessionStep, silentCond, hm]
    · simp only [sessionStep, hm, if_false, handleMessage, silentCond]
      cases hp : parseMessage (pyStrip raw) with
      | nil => intro hc; simp at hc
      | cons cmd rest =>
        intro hc
        rcases handleCommand_reply_count root net w st cmd (argOf rest) hc with h1 | ⟨h2, hh⟩
        · simp [h1, hm]
        · simp [h2, hh, hm]

/-- Witness for C7 amended: `QUIT` on a fresh session draws exactly one
reply, and a blank line draws none. -/
theorem c7_reply_count_amended_witness :
    (sessionStep "/r" net0 w0 stUnauth (.msg "QUIT")).crashed = none ∧
    (sessionStep "/r" net0 w0 stUnauth (.msg "QUIT")).replies.length = 1 ∧
    ¬ ((sessionStep "/r" net0 w0 stUnauth (.msg "QUIT")).replies.length = 0) ∧
    silentCond (.msg "QUIT") = false :=
  ⟨by decide,
    by
      rcases c7_reply_count_amended "/r" net0 w0 stUnauth (.msg "QUIT") (by decide)
        with ⟨hlen, hiff, htwo⟩
      rcases hlen with h | h | h
      · exact absurd (by decide : silentCond (.msg "QUIT") = false)
          (by simp [hiff.mp h])
      · exact h
      · exact absurd (htwo h) (by decide),
    by decide, by decide⟩
